import Mathlib

/-!
Verification of the Fuchsia `scripts/fuzzing` library (Device / Fuzzer / Host)
against its natural-language specification.

The Python sources `scripts/fuzzing/lib/device.py`, `fuzzer.py` and `host.py`
are shallowly embedded below.  Strings are modelled as `List Char`; the
outputs and exit statuses of external processes (ssh, scp, the symbolizer)
are passed in explicitly as parameters, and each function returns the remote
invocations it issues alongside its result, so that claims about command
counts and traces can be stated.  Fallible Python code (uncaught exceptions)
is modelled with `Except`.
-/

/-- Strings are modelled as lists of characters. -/
abbrev Str := List Char

/-- Python `str.isspace` on a single character, i.e. the characters matched by
the whitespace class used by `str.split()`. -/
def pyIsSpace (c : Char) : Bool :=
  c = ' ' || c = '\t' || c = '\n' || c = '\r' || c = '\x0b' || c = '\x0c'

/-- Python `s.split('\n')`: split on every newline, keeping empty pieces. -/
def splitOnNl : Str → List Str
  | [] => [[]]
  | '\n' :: rest => [] :: splitOnNl rest
  | c :: rest =>
    match splitOnNl rest with
    | [] => [[c]]
    | l :: ls => (c :: l) :: ls

/-- Helper for `pySplitWs`: accumulate the current token (reversed). -/
def splitWsGo : Str → Str → List Str
  | acc, [] => if acc.isEmpty then [] else [acc.reverse]
  | acc, c :: cs =>
    if pyIsSpace c then
      if acc.isEmpty then splitWsGo [] cs else acc.reverse :: splitWsGo [] cs
    else
      splitWsGo (c :: acc) cs

/-- Python `str.split()` with no argument: split on runs of whitespace,
dropping empty tokens. -/
def pySplitWs (cs : Str) : List Str := splitWsGo [] cs

/-- Numeric value of a digit string (most significant first). -/
def digitsVal (ds : Str) : Int :=
  ds.foldl (fun n c => n * 10 + (Int.ofNat (c.toNat - 48))) 0

/-- Python `int(token)` on a whitespace-free token: optional sign followed by
at least one decimal digit; anything else raises `ValueError` (`none`). -/
def pyInt (cs : Str) : Option Int :=
  match cs with
  | '-' :: ds => if ds ≠ [] ∧ ds.all Char.isDigit then some (-(digitsVal ds)) else none
  | '+' :: ds => if ds ≠ [] ∧ ds.all Char.isDigit then some (digitsVal ds) else none
  | ds => if ds ≠ [] ∧ ds.all Char.isDigit then some (digitsVal ds) else none

/-- Strip the literal `lit` from the front of `cs`, returning the remainder. -/
def dropLit : Str → Str → Option Str
  | [], cs => some cs
  | _ :: _, [] => none
  | p :: ps, c :: cs => if p = c then dropLit ps cs else none

/-- Python `' '.join(tokens)`. -/
def joinSpace : List Str → Str
  | [] => []
  | [t] => t
  | t :: ts => t ++ ' ' :: joinSpace ts

/-- The mutable state of `device.py`'s `Device`: the process-ID cache
`_pids`, a map from (package, executable) to PID, or `none` before the first
status query (`self._pids = None` in `__init__`). -/
structure Device where
  pids : Option (List ((Str × Str) × Int))

/-- Python `dict` insertion `m[k] = v`: overwrite in place if the key is
present, otherwise append. -/
def dictInsert {α : Type} [DecidableEq α] (m : List (α × Int)) (k : α) (v : Int) :
    List (α × Int) :=
  if m.any (fun p => p.1 = k) then
    m.map (fun p => if p.1 = k then (k, v) else p)
  else
    m ++ [(k, v)]

/-- Python `dict.get(k, -1)`. -/
def dictGet {α : Type} [DecidableEq α] (m : List (α × Int)) (k : α) : Int :=
  match m.find? (fun p => p.1 = k) with
  | some p => p.2
  | none => -1

/-- One step of `Device.ls`'s parsing loop (device.py lines 193-197):
`parts = line.split()`; a line with more than 8 tokens contributes
`results[' '.join(parts[8:])] = int(parts[4])`, where a non-numeric size
raises an uncaught `ValueError`; shorter lines are skipped. -/
def lsLine (line : Str) : Except Str (Option (Str × Int)) :=
  if (pySplitWs line).length > 8 then
    match pyInt ((pySplitWs line).getD 4 []) with
    | some n => .ok (some (joinSpace ((pySplitWs line).drop 8), n))
    | none => .error ("ValueError: invalid literal for int".toList)
  else
    .ok none

/-- The parsing loop of `Device.ls` over the split output lines, threading the
`results` dict. -/
def lsRun : List Str → List (Str × Int) → Except Str (List (Str × Int))
  | [], m => .ok m
  | line :: rest, m =>
    match lsLine line with
    | .error e => .error e
    | .ok none => lsRun rest m
    | .ok (some (k, v)) => lsRun rest (dictInsert m k v)

/-- `Device.ls(path)` (device.py lines 188-200).  The outcome of the remote
`ls -l` command is a parameter: `.error ()` models `check_output` raising
`subprocess.CalledProcessError`, which the `try`/`except` catches, returning
the empty dict; `.ok out` is the captured output, parsed line by line. -/
def Device.ls (cmdOut : Except Unit Str) : Except Str (List (Str × Int)) :=
  match cmdOut with
  | .error _ => .ok []
  | .ok out => lsRun (splitOnNl out) []

/-!
The status-line pattern of `Device.getpid` (device.py lines 174-177):

  `r'  (?P<executable>.*)\.cmx\[(?P<pid>\d+)\]: '`
  `r'fuchsia-pkg://fuchsia.com/(?P<package>.*)#meta/(?P=executable).cmx'`

applied with `re.match` (anchored at the start of the line, allowing trailing
text).  The two `.*` groups are greedy, so the matcher below prefers the
longest executable, then the longest digit run, then the longest package.
The dots inside `fuchsia.com` and in the final `.cmx` are unescaped in the
source pattern and therefore match any character.
-/

/-- Does `cs` begin with `#meta/<e><any char>cmx`, the tail of the status
pattern after the package group (with the backreference `(?P=executable)` and
the unescaped final dot)? -/
def metaTailOk (e : Str) (cs : Str) : Bool :=
  match dropLit ("#meta/".toList ++ e) cs with
  | some (_ :: cs2) => (dropLit "cmx".toList cs2).isSome
  | _ => false

/-- Greedy split for the `(?P<package>.*)` group: the longest prefix `p` of
`cs` such that the remainder satisfies `metaTailOk e`. -/
def pkgSplit (e : Str) : Str → Option Str
  | [] => if metaTailOk e [] then some [] else none
  | c :: cs =>
    match pkgSplit e cs with
    | some p => some (c :: p)
    | none => if metaTailOk e (c :: cs) then some [] else none

/-- Match the pattern tail after the executable group: literal `.cmx[`, the
greedy digit group followed by `]: `, the literal `fuchsia-pkg://fuchsia`, an
arbitrary character (the unescaped dot), `com/`, and the package group.
Returns the captured (pid, package). -/
def matchAfterExe (e : Str) : Str → Option (Int × Str)
  | '.' :: 'c' :: 'm' :: 'x' :: '[' :: cs =>
    let ds := cs.takeWhile Char.isDigit
    if ds.isEmpty then none
    else
      match cs.dropWhile Char.isDigit with
      | ']' :: ':' :: ' ' :: cs2 =>
        match dropLit "fuchsia-pkg://fuchsia".toList cs2 with
        | some (_ :: cs3) =>
          match dropLit "com/".toList cs3 with
          | some cs4 => (pkgSplit e cs4).map (fun p => (digitsVal ds, p))
          | none => none
        | _ => none
      | _ => none
  | _ => none

/-- Greedy search for the `(?P<executable>.*)` group: try the longest
candidate executable first (`acc` is the candidate built so far).  Returns
the captured (executable, pid, package). -/
def exeScan (acc : Str) : Str → Option (Str × Int × Str)
  | [] => (matchAfterExe acc []).map (fun r => (acc, r))
  | c :: cs =>
    match exeScan (acc ++ [c]) cs with
    | some r => some r
    | none => (matchAfterExe acc (c :: cs)).map (fun r => (acc, r))

/-- `re.match` of the full status pattern against one line: two literal
spaces, then the groups.  Returns `((package, executable), pid)`, the key and
value inserted into the PID cache. -/
def statusLineMatch (line : Str) : Option ((Str × Str) × Int) :=
  match line with
  | ' ' :: ' ' :: rest =>
    (exeScan [] rest).map (fun r => ((r.2.2, r.1), r.2.1))
  | _ => none

/-- The cache-rebuild loop of `Device.getpid` (device.py lines 172-185):
split the `cs` command output on newlines and insert every matching line
into a fresh dict keyed by (package, executable). -/
def buildPids (out : Str) : List ((Str × Str) × Int) :=
  (splitOnNl out).foldl
    (fun m line =>
      match statusLineMatch line with
      | some (key, pid) => dictInsert m key pid
      | none => m)
    []

/-- `Device.getpid(package, executable, refresh)` (device.py lines 154-186).
`csOut` is the output the remote `cs` command would produce if issued.
Returns the updated device, the number of status commands issued (0 or 1),
and the PID (or the -1 sentinel). -/
def Device.getpid (d : Device) (csOut : Str) (package executable : Str)
    (refresh : Bool) : Device × Nat × Int :=
  match d.pids, refresh with
  | some m, false => (d, 0, dictGet m (package, executable))
  | _, _ =>
    let m := buildPids csOut
    (⟨some m⟩, 1, dictGet m (package, executable))

/-- `Device.scp_rpath(pathname)` (device.py lines 242-244):
`'[{}]:{}'.format(self.addr, pathname)`. -/
def Device.scpRpath (addr pathname : Str) : Str :=
  '[' :: addr ++ ']' :: ':' :: pathname

/-- `Device.fetch(host_dst, *args)` (device.py lines 246-264).  The first
parameter is the host destination directory; it is checked with
`cli.isdir` (`isdir` below, a host-filesystem oracle) and a non-directory
raises `ValueError(host_dst + ' is not a directory')`.  On success the
function runs `['scp'] + ssh_opts + [scp_rpath(src) for src in args] +
[host_dst]`; the returned value is that command line.  Note the source
signature has exactly one named parameter (`host_dst`) plus `*args` and no
keyword parameters, and its docstring states it does not retry. -/
def Device.fetch (isdir : Str → Bool) (sshOpts : List Str) (addr : Str)
    (hostDst : Str) (args : List Str) : Except Str (List Str) :=
  if isdir hostDst then
    .ok (["scp".toList] ++ sshOpts ++ args.map (Device.scpRpath addr) ++ [hostDst])
  else
    .error (hostDst ++ " is not a directory".toList)

/-- Parameter names of `Device.fetch` that a Python keyword argument could
bind to: just `host_dst` (the `*args` catch-all accepts no keywords and the
definition has no `**kwargs`). -/
def Device.fetchKeywordParams : List Str := ["host_dst".toList]

/-- Keyword arguments supplied at `Fuzzer.monitor`'s background-log fetch
call site (fuzzer.py line 317): `self.device.fetch(logs, self._output,
retries=2)`. -/
def Fuzzer.monitorFetchKwargs : List Str := ["retries".toList]

/-- Python call binding for keyword arguments: every supplied keyword must
name a declared parameter (there is no `**kwargs` on `Device.fetch`), else
the call raises `TypeError: unexpected keyword argument`. -/
def pyKeywordsBind (params : List Str) (kwargs : List Str) : Bool :=
  kwargs.all (fun k => params.contains k)

/-- `Device.store(device_dst, *args)` (device.py lines 266-281): a remote
`mkdir -p`, host-side glob expansion of each pattern (the `glob` oracle),
and one `scp` push when any file matched.  Returns the issued commands and
the list of transferred host files (used by callers to detect "no match"). -/
def Device.store (glob : Str → List Str) (sshOpts : List Str) (addr : Str)
    (deviceDst : Str) (args : List Str) : List (List Str) × List Str :=
  let mkdirCmd : List Str := ["mkdir".toList, "-p".toList, deviceDst]
  let hostSrcs := args.foldl (fun acc pat => acc ++ glob pat) []
  if hostSrcs.isEmpty then
    ([mkdirCmd], hostSrcs)
  else
    ([mkdirCmd,
      ["scp".toList] ++ sshOpts ++ hostSrcs ++ [Device.scpRpath addr deviceDst]],
     hostSrcs)

/-!  Host.symbolize (host.py lines 229-245). -/

/-- The character class `[0-9\[\]\.]` of the post-processing pattern in
`Host.symbolize`. -/
def klogClassChar (c : Char) : Bool :=
  c.isDigit || c = '[' || c = ']' || c = '.'

/-- Literal part of the post-processing pattern: `\[klog\] INFO: `. -/
def klogLit : Str := "[klog] INFO: ".toList

/-- Try to match the pattern `[0-9\[\]\.]*\[klog\] INFO: ` at the head of
`cs`, greedily (longest class run first, backtracking as the regex engine
does).  `k` is the class-run length currently tried.  Returns the remainder
after the match. -/
def klogMatchLen (cs : Str) : Nat → Option Str
  | 0 => dropLit klogLit cs
  | k + 1 =>
    match dropLit klogLit (cs.drop (k + 1)) with
    | some rest => some rest
    | none => klogMatchLen cs k

/-- Match the whole substitution pattern at the head of `cs`. -/
def klogMatch (cs : Str) : Option Str :=
  klogMatchLen cs ((cs.takeWhile klogClassChar).length)

/-- `re.sub(r'[0-9\[\]\.]*\[klog\] INFO: ', '', out)`: scan left to right,
removing every non-overlapping match.  Every match consumes at least the
13-character literal, so a fuel of `cs.length` suffices. -/
def klogSubAux : Nat → Str → Str
  | 0, cs => cs
  | _ + 1, [] => []
  | fuel + 1, c :: cs =>
    match klogMatch (c :: cs) with
    | some rest => klogSubAux fuel rest
    | none => c :: klogSubAux fuel cs

/-- The `re.sub` post-processing applied by `Host.symbolize` to its output. -/
def klogSub (cs : Str) : Str := klogSubAux cs.length cs

/-- `Host.symbolize(raw)` (host.py lines 229-245): pipe `raw` through the
external symbolizer process; `returncode` and `out` are that process's exit
status and captured stdout.  On nonzero exit the output is replaced by the
empty string before the `re.sub` post-processing. -/
def Host.symbolize (raw : Str) (returncode : Int) (out : Str) : Str :=
  let _ := raw
  let out := if returncode ≠ 0 then [] else out
  klogSub out

/-! Fuzzer (fuzzer.py). -/

/-- The fields of `Fuzzer` relevant to the lifecycle claims: the bound
device, the (package, executable) identity and the last-observed `_pid`
(`None` at construction). -/
structure Fuzzer where
  device : Device
  package : Str
  executable : Str
  pid : Option Int

/-- `Fuzzer.data_path(relpath)` (fuzzer.py lines 146-149). -/
def Fuzzer.dataPath (f : Fuzzer) (relpath : Str) : Str :=
  "/data/r/sys/fuchsia.com:".toList ++ f.package ++ ":0#meta:".toList ++
    f.executable ++ ".cmx/".toList ++ relpath

/-- `str(fuzzer)` (fuzzer.py lines 67-68): `'{}/{}'` of package and
executable. -/
def Fuzzer.name (f : Fuzzer) : Str := f.package ++ '/' :: f.executable

/-- `Fuzzer.is_running(refresh)` (fuzzer.py lines 166-173): store the PID
from `Device.getpid` and report whether it is positive.  Returns the updated
fuzzer, the number of status commands issued, and the flag. -/
def Fuzzer.isRunning (f : Fuzzer) (csOut : Str) (refresh : Bool) :
    Fuzzer × Nat × Bool :=
  let r := Device.getpid f.device csOut f.package f.executable refresh
  ({ f with device := r.1, pid := some r.2.2 }, r.2.1, r.2.2 > 0)

/-- `Fuzzer.require_stopped(refresh)` (fuzzer.py lines 175-179).  `cli.error`
is modelled from the spec: `cli.py` is not in the tree, and §7 of the spec
says precondition failures are raised as fail-fast user-visible errors, so
the error aborts the caller (`Except.error` with the formatted message). -/
def Fuzzer.requireStopped (f : Fuzzer) (csOut : Str) (refresh : Bool) :
    Fuzzer × Nat × Except Str Unit :=
  let r := Fuzzer.isRunning f csOut refresh
  if r.2.2 then
    (r.1, r.2.1,
     .error (Fuzzer.name f ++ " is running and must be stopped first.".toList))
  else
    (r.1, r.2.1, .ok ())

/-- The precondition gate of `Fuzzer.start` (fuzzer.py line 223): the source
calls `self.require_stopped()` with its default `refresh=False`.  When the
gate fails, `cli.error` raises, so the status query (issued only when the
PID cache was empty) is the only remote interaction; when it passes, `start`
goes on to issue further device commands (not modelled here). -/
def Fuzzer.startGate (f : Fuzzer) (csOut : Str) : Fuzzer × Nat × Except Str Unit :=
  Fuzzer.requireStopped f csOut false

/-! The symbolization pipeline `Fuzzer._symbolize_log_impl`
(fuzzer.py lines 274-304). -/

/-- `re.search(r'^==([0-9]+)==', line)`: the line must begin with `==`, a
nonempty greedy digit run, and `==` again.  Returns the captured PID. -/
def pidMarker (line : Str) : Option Int :=
  match line with
  | '=' :: '=' :: rest =>
    let ds := rest.takeWhile Char.isDigit
    if ds.isEmpty then none
    else
      match rest.dropWhile Char.isDigit with
      | '=' :: '=' :: _ => some (digitsVal ds)
      | _ => none
  | _ => none

/-- `re.search(r'^MS: [0-9]*', line)`: since `[0-9]*` matches the empty
string, this is exactly a prefix test for `MS: `. -/
def mutMarker (line : Str) : Bool :=
  (dropLit "MS: ".toList line).isSome

/-- `re.search(r'Test unit written to data/(\S*)', line)`: find the leftmost
occurrence of the literal and capture the following maximal run of
non-whitespace characters. -/
def artMarker : Str → Option Str
  | [] =>
    match dropLit "Test unit written to data/".toList [] with
    | some rest => some (rest.takeWhile (fun c => !pyIsSpace c))
    | none => none
  | c :: cs =>
    match dropLit "Test unit written to data/".toList (c :: cs) with
    | some rest => some (rest.takeWhile (fun c => !pyIsSpace c))
    | none => artMarker cs

/-- Environment of one `_symbolize_log_impl` run: the PID guessed by
`Device.guess_pid`, and the symbolized text produced by the composite
`host.symbolize(device.dump_log(['--pid', str(pid)]))` at the k-th fetch
(the pipeline observes only this composite result, and the claims below
count the fetch/symbolize/write events). -/
structure SymEnv where
  guessPid : Int
  symAt : Nat → Str

/-- Loop state of `_symbolize_log_impl`: the local variables `pid`, `sym`
and `artifacts`, together with the lines written to `fd_out` and the number
of syslog fetch/symbolize/write events performed so far. -/
structure SymState where
  pid : Int
  sym : Option Str
  artifacts : List Str
  fetches : Nat
  out : List Str

/-- Initial loop state: `pid = -1`, `sym = None`, `artifacts = []`. -/
def initSymState : SymState :=
  { pid := -1, sym := none, artifacts := [], fetches := 0, out := [] }

/-- Python truthiness of the `sym` variable in `if not sym:`: `None` and the
empty string are both falsy. -/
def symFalsy (s : Option Str) : Bool :=
  s = none || s = some []

/-- One iteration of the `for line in iter(fd_in.readline, '')` loop of
`_symbolize_log_impl`: record a PID marker, handle a mutation marker (guess
the PID if unknown; if `sym` is falsy, fetch the syslog, symbolize it and
write it to the output), record an artifact announcement, and append the raw
line to the output. -/
def symStep (env : SymEnv) (st : SymState) (line : Str) : SymState :=
  let st :=
    match pidMarker line with
    | some p => { st with pid := p }
    | none => st
  let st :=
    if mutMarker line then
      let st := if st.pid ≤ 0 then { st with pid := env.guessPid } else st
      if symFalsy st.sym then
        let s := env.symAt st.fetches
        { st with sym := some s, fetches := st.fetches + 1, out := st.out ++ [s] }
      else st
    else st
  let st :=
    match artMarker line with
    | some a => { st with artifacts := st.artifacts ++ [a] }
    | none => st
  { st with out := st.out ++ [line] }

/-- The line loop of `Fuzzer._symbolize_log_impl` over the whole stream. -/
def symbolizeLogImpl (env : SymEnv) (lines : List Str) : SymState :=
  lines.foldl (symStep env) initSymState

/-- The post-loop artifact fetch calls of `_symbolize_log_impl` (fuzzer.py
lines 302-303): for each recorded artifact the source invokes
`self.device.fetch(self.data_path(artifact), self.output)`, i.e. it passes
`data_path(artifact)` in `Device.fetch`'s `host_dst` position and the output
directory in the device-sources position.  Each returned pair is the
(host_dst, args) argument pair of one such call. -/
def symbolizeLogFetchCalls (f : Fuzzer) (output : Str) (env : SymEnv)
    (lines : List Str) : List (Str × List Str) :=
  (symbolizeLogImpl env lines).artifacts.map
    (fun artifact => (Fuzzer.dataPath f artifact, [output]))

/-- Return value of `_symbolize_log_impl`: `sym != None`. -/
def symbolizeLogRet (env : SymEnv) (lines : List Str) : Bool :=
  (symbolizeLogImpl env lines).sym ≠ none

/-! Engine options and the argument vector built by `Fuzzer._create`
(fuzzer.py lines 53-65 and 185-201). -/

/-- Engine option maps: Python dicts from option name to value. -/
abbrev Options := List (Str × Str)

/-- `self._options = {'artifact_prefix': 'data/'}` in `Fuzzer.__init__`
(fuzzer.py line 58). -/
def Fuzzer.initOptions : Options :=
  [("artifact_prefix".toList, "data/".toList)]

/-- `Fuzzer.DEBUG_OPTIONS` (fuzzer.py lines 49-51). -/
def Fuzzer.DEBUG_OPTIONS : List Str :=
  ["handle_segv".toList, "handle_bus".toList, "handle_ill".toList,
   "handle_fpe".toList, "handle_abrt".toList]

/-- `Fuzzer.ARTIFACT_PREFIXES` (fuzzer.py lines 43-45). -/
def Fuzzer.ARTIFACT_PREFIXES : List Str :=
  ["crash".toList, "leak".toList, "mismatch".toList, "oom".toList,
   "slow-unit".toList, "timeout".toList]

/-- Python dict assignment `m[k] = v` for string-valued option maps. -/
def optInsert (m : Options) (k v : Str) : Options :=
  if m.any (fun p => p.1 = k) then
    m.map (fun p => if p.1 = k then (k, v) else p)
  else
    m ++ [(k, v)]

/-- Python `dict.update(n)`: insert every pair of `n` in order. -/
def optUpdate (m : Options) (n : Options) : Options :=
  n.foldl (fun m p => optInsert m p.1 p.2) m

/-- Lexicographic strict order on character lists (Python string `<`). -/
def strLt : Str → Str → Bool
  | [], [] => false
  | [], _ :: _ => true
  | _ :: _, [] => false
  | a :: as_, b :: bs => a < b || (a = b && strLt as_ bs)

/-- Python tuple comparison on option items, as used by
`sorted(self._options.items())`. -/
def itemLe (p q : Str × Str) : Bool :=
  strLt p.1 q.1 || (p.1 = q.1 && !strLt q.2 p.2)

/-- Insertion into a sorted item list. -/
def sortedInsert (p : Str × Str) : Options → Options
  | [] => [p]
  | q :: qs => if itemLe p q then p :: q :: qs else q :: sortedInsert p qs

/-- `sorted(items)` by insertion sort. -/
def sortItems : Options → Options
  | [] => []
  | p :: ps => sortedInsert p (sortItems ps)

/-- `Fuzzer.url()` (fuzzer.py lines 181-183). -/
def Fuzzer.url (f : Fuzzer) : Str :=
  "fuchsia-pkg://fuchsia.com/".toList ++ f.package ++ "#meta/".toList ++
    f.executable ++ ".cmx".toList

/-- The option-map mutations performed inside `Fuzzer._create` (fuzzer.py
lines 185-191): a default job count when running in the background, the
debug handler toggles, then `update` with the caller's libFuzzer options. -/
def Fuzzer.createOptions (opts : Options) (foreground debug : Bool)
    (libfuzzerOpts : Options) : Options :=
  let opts := if !foreground then optInsert opts "jobs".toList "1".toList else opts
  let opts :=
    Fuzzer.DEBUG_OPTIONS.foldl
      (fun o option => if debug then optInsert o option "0".toList else o) opts
  optUpdate opts libfuzzerOpts

/-- The `fuzz_cmd` argument vector built by `Fuzzer._create` (fuzzer.py
lines 192-198): `run <url>`, the sorted `-key=value` options, the libFuzzer
inputs, and the subprocess arguments after a `--` separator. -/
def Fuzzer.createCmd (f : Fuzzer) (opts : Options) (foreground debug : Bool)
    (libfuzzerOpts : Options) (inputs subprocessArgs : List Str) : List Str :=
  ["run".toList, Fuzzer.url f] ++
    (sortItems (Fuzzer.createOptions opts foreground debug libfuzzerOpts)).map
      (fun p => '-' :: p.1 ++ '=' :: p.2) ++
    inputs ++
    (if subprocessArgs.isEmpty then [] else "--".toList :: subprocessArgs)

/-- The argument vector `Fuzzer.start` hands to the device (fuzzer.py lines
232-238): starting from the constructor's options, `start` sets
`self._options['dict']` and replaces the inputs with `['data/corpus/']`
before calling `_create`. -/
def Fuzzer.startCmd (f : Fuzzer) (foreground debug : Bool)
    (libfuzzerOpts : Options) (subprocessArgs : List Str) : List Str :=
  let opts := optInsert Fuzzer.initOptions "dict".toList
    ("pkg/data/".toList ++ f.executable ++ "/dictionary".toList)
  Fuzzer.createCmd f opts foreground debug libfuzzerOpts
    ["data/corpus/".toList] subprocessArgs

/-- Python `os.path.basename`: the part after the last `/`. -/
def baseName (cs : Str) : Str :=
  ((cs.reverse.takeWhile (fun c => c ≠ '/'))).reverse

/-- The input-staging loop of `Fuzzer.repro` (fuzzer.py lines 347-356).
Note the call as written in the source is
`self.device.store(pattern, self.data_path())`, which passes the caller's
pattern in `Device.store`'s `device_dst` position and the data path in the
glob-pattern varargs position.  The loop fails on an empty glob match and
rewrites the inputs to `data/<basename>` paths.  Returns the device commands
issued and either the failure message or the namespaced inputs. -/
def reproLoop (glob : Str → List Str) (sshOpts : List Str) (addr : Str)
    (f : Fuzzer) : List Str → List (List Str) → List Str →
      List (List Str) × Except Str (List Str)
  | [], cmds, namespaced => (cmds, .ok namespaced)
  | pattern :: rest, cmds, namespaced =>
    let r := Device.store glob sshOpts addr pattern [Fuzzer.dataPath f []]
    let cmds := cmds ++ r.1
    if r.2.isEmpty then
      (cmds, .error ("No matching files: \"".toList ++ pattern ++ "\".".toList))
    else
      reproLoop glob sshOpts addr f rest cmds
        (namespaced ++ r.2.map (fun n => "data/".toList ++ baseName n))

/-- `Fuzzer.repro` (fuzzer.py lines 331-360).  With no caller-supplied
inputs it raises `cli.error('No units provided.', ...)` before anything else
(`cli.error` modelled from the spec as an aborting failure, `cli.py` being
absent from the tree); otherwise it stages the inputs, forces foreground
mode and runs the `_create` vector once.  Returns the device commands issued
and the outcome. -/
def Fuzzer.repro (glob : Str → List Str) (sshOpts : List Str) (addr : Str)
    (f : Fuzzer) (debug : Bool) (libfuzzerOpts : Options)
    (libfuzzerInputs : List Str) (subprocessArgs : List Str) :
    List (List Str) × Except Str Unit :=
  if libfuzzerInputs.isEmpty then
    ([], .error "No units provided.".toList)
  else
    let r := reproLoop glob sshOpts addr f libfuzzerInputs [] []
    match r.2 with
    | .error e => (r.1, .error e)
    | .ok namespaced =>
      (r.1 ++ [Fuzzer.createCmd f Fuzzer.initOptions true debug libfuzzerOpts
        namespaced subprocessArgs], .ok ())

/-! Theorems. -/

/-- A listing line is well-formed when it has more than 8 whitespace
tokens. -/
def lsWf (line : Str) : Bool := (pySplitWs line).length > 8

/-- The (name, size) pair a well-formed listing line contributes. -/
def lsPair (line : Str) : Option (Str × Int) :=
  if (pySplitWs line).length > 8 then
    (pyInt ((pySplitWs line).getD 4 [])).map
      (fun n => (joinSpace ((pySplitWs line).drop 8), n))
  else none

theorem dictInsert_not_mem {α : Type} [DecidableEq α] (m : List (α × Int))
    (k : α) (v : Int) (h : k ∉ m.map Prod.fst) : dictInsert m k v = m ++ [(k, v)] := by
  unfold dictInsert
  have : m.any (fun p => p.1 = k) = false := by
    rw [List.any_eq_false]
    intro p hp
    simp only [decide_eq_true_eq]
    intro hk
    exact h (List.mem_map.mpr ⟨p, hp, hk⟩)
  simp [this]

theorem lsLine_of_int (line : Str) (n : Int)
    (hwf : (pySplitWs line).length > 8)
    (hn : pyInt ((pySplitWs line).getD 4 []) = some n) :
    lsLine line = .ok (some (joinSpace ((pySplitWs line).drop 8), n)) := by
  unfold lsLine
  rw [if_pos hwf, hn]

theorem lsPair_of_int (line : Str) (n : Int)
    (hwf : (pySplitWs line).length > 8)
    (hn : pyInt ((pySplitWs line).getD 4 []) = some n) :
    lsPair line = some (joinSpace ((pySplitWs line).drop 8), n) := by
  unfold lsPair
  rw [if_pos hwf, hn]
  rfl

theorem lsLine_of_short (line : Str) (hwf : ¬ (pySplitWs line).length > 8) :
    lsLine line = .ok none := by
  unfold lsLine
  rw [if_neg hwf]

theorem lsPair_of_short (line : Str) (hwf : ¬ (pySplitWs line).length > 8) :
    lsPair line = none := by
  unfold lsPair
  rw [if_neg hwf]

theorem lsRun_wf (lines : List Str) (m : List (Str × Int))
    (h1 : ∀ l ∈ lines, lsWf l → pyInt ((pySplitWs l).getD 4 []) ≠ none)
    (h2 : ((m ++ lines.filterMap lsPair).map Prod.fst).Nodup) :
    lsRun lines m = .ok (m ++ lines.filterMap lsPair) := by
  induction lines generalizing m with
  | nil => simp [lsRun]
  | cons line rest ih =>
    by_cases hwf : (pySplitWs line).length > 8
    · have hint := h1 line (by simp) (by simpa [lsWf] using hwf)
      obtain ⟨n, hn⟩ : ∃ n, pyInt ((pySplitWs line).getD 4 []) = some n := by
        cases hx : pyInt ((pySplitWs line).getD 4 []) with
        | none => exact absurd hx hint
        | some n => exact ⟨n, rfl⟩
      have hline := lsLine_of_int line n hwf hn
      have hpair := lsPair_of_int line n hwf hn
      set k := joinSpace ((pySplitWs line).drop 8) with hk
      have h2' : ((m ++ (k, n) :: rest.filterMap lsPair).map Prod.fst).Nodup := by
        simpa [hpair] using h2
      have hknotm : k ∉ m.map Prod.fst := by
        intro hmem
        rw [List.map_append, List.nodup_append] at h2'
        exact h2'.2.2 hmem (by simp)
      have hins : dictInsert m k n = m ++ [(k, n)] := dictInsert_not_mem m k n hknotm
      have hrec := ih (m ++ [(k, n)])
        (fun l hl => h1 l (by simp [hl]))
        (by simpa [hpair] using h2)
      simp only [lsRun, hline, hins]
      simpa [hpair] using hrec
    · have hline := lsLine_of_short line hwf
      have hpair := lsPair_of_short line hwf
      have hrec := ih m (fun l hl => h1 l (by simp [hl])) (by simpa [hpair] using h2)
      simp only [lsRun, hline]
      simpa [hpair] using hrec

theorem filterMap_lsPair_length (lines : List Str)
    (h1 : ∀ l ∈ lines, lsWf l → pyInt ((pySplitWs l).getD 4 []) ≠ none) :
    (lines.filterMap lsPair).length = lines.countP lsWf := by
  induction lines with
  | nil => simp
  | cons line rest ih =>
    have ih' := ih (fun l hl => h1 l (by simp [hl]))
    by_cases hwf : (pySplitWs line).length > 8
    · have hint := h1 line (by simp) (by simpa [lsWf] using hwf)
      obtain ⟨n, hn⟩ : ∃ n, pyInt ((pySplitWs line).getD 4 []) = some n := by
        cases hx : pyInt ((pySplitWs line).getD 4 []) with
        | none => exact absurd hx hint
        | some n => exact ⟨n, rfl⟩
      have hpair := lsPair_of_int line n hwf hn
      simp [List.countP_cons, hpair, lsWf, hwf, ih']
    · have hpair := lsPair_of_short line hwf
      simp [List.countP_cons, hpair, lsWf, hwf, ih']

/-- C5 (amended): on a listing output in which every line with more than 8
tokens has an integer 5th token and the resulting names are distinct,
`Device.ls` returns exactly one (name, size) entry per such line, with the
name the joined tokens from the 9th column on and the size the 5th-column
integer; a failed listing command yields the empty map.  (As stated the
claim is false: a line with more than 8 tokens whose 5th token is not an
integer is not skipped but aborts the parse, see the counterexample.) -/
theorem claim_C5_ls_parse (out : Str)
    (h1 : ∀ l ∈ splitOnNl out, lsWf l → pyInt ((pySplitWs l).getD 4 []) ≠ none)
    (h2 : (((splitOnNl out).filterMap lsPair).map Prod.fst).Nodup) :
    Device.ls (.ok out) = .ok ((splitOnNl out).filterMap lsPair) ∧
    ((splitOnNl out).filterMap lsPair).length = (splitOnNl out).countP lsWf ∧
    Device.ls (.error ()) = .ok [] := by
  refine ⟨?_, filterMap_lsPair_length _ h1, rfl⟩
  have := lsRun_wf (splitOnNl out) [] h1 (by simpa using h2)
  simpa [Device.ls] using this

/-- C5 witness: the amended theorem applied to the documented example line
`-rw-r--r-- 1 0 0 8192 Mar 18 22:02 some-name` together with a malformed
(short) line, which is skipped. -/
theorem claim_C5_ls_parse_witness :
    Device.ls (.ok ("-rw-r--r-- 1 0 0 8192 Mar 18 22:02 some-name\nbogus".toList)) =
      .ok [("some-name".toList, 8192)] := by
  have h := claim_C5_ls_parse
    ("-rw-r--r-- 1 0 0 8192 Mar 18 22:02 some-name\nbogus".toList)
    (by decide) (by decide)
  have h1 := h.1
  simpa using h1

/-- C5 counterexample: a line in `ls -l` shape whose size column is not a
number is not skipped; the parse aborts with a `ValueError`, so `Device.ls`
does not return a map at all. -/
theorem claim_C5_counterexample :
    Device.ls (.ok "-rw-r--r-- 1 0 0 zzz Mar 18 22:02 some-name".toList) =
      .error "ValueError: invalid literal for int".toList := by
  rfl

/-- C6: on status output listing targets foo/bar with pid 111 and foo/baz
with pid 222 in the documented line format, `getpid('foo','bar')` returns
111, `getpid('foo','baz')` returns 222, and a pair not present in the output
returns the -1 sentinel. -/
theorem claim_C6_getpid_concrete :
    (Device.getpid ⟨none⟩
      ("  bar.cmx[111]: fuchsia-pkg://fuchsia.com/foo#meta/bar.cmx\n" ++
       "  baz.cmx[222]: fuchsia-pkg://fuchsia.com/foo#meta/baz.cmx").toList
      "foo".toList "bar".toList false).2.2 = 111 ∧
    (Device.getpid ⟨none⟩
      ("  bar.cmx[111]: fuchsia-pkg://fuchsia.com/foo#meta/bar.cmx\n" ++
       "  baz.cmx[222]: fuchsia-pkg://fuchsia.com/foo#meta/baz.cmx").toList
      "foo".toList "baz".toList false).2.2 = 222 ∧
    (Device.getpid ⟨none⟩
      ("  bar.cmx[111]: fuchsia-pkg://fuchsia.com/foo#meta/bar.cmx\n" ++
       "  baz.cmx[222]: fuchsia-pkg://fuchsia.com/foo#meta/baz.cmx").toList
      "foo".toList "qux".toList false).2.2 = -1 := by
  exact ⟨by decide, by decide, by decide⟩

/-- C3: without `refresh`, two successive `getpid` calls on a device whose
cache is in its initial (absent) state issue exactly one status command (the
first issues it, the second none, whatever output or key it is asked for);
with `refresh=true` a status command is always issued and the cache is
replaced wholesale by the parse of the new output, so a key absent from the
new output yields -1 even if the old cache contained it. -/
theorem claim_C3_getpid_cache (d : Device) (out out2 p e p2 e2 : Str) :
    ((Device.getpid ⟨none⟩ out p e false).2.1 = 1 ∧
     (Device.getpid (Device.getpid ⟨none⟩ out p e false).1 out2 p2 e2 false).2.1 = 0) ∧
    ((Device.getpid d out p e true).2.1 = 1 ∧
     (Device.getpid d out p e true).1.pids = some (buildPids out)) ∧
    (dictGet (buildPids out) (p2, e2) = -1 →
     (Device.getpid d out p2 e2 true).2.2 = -1) := by
  refine ⟨⟨rfl, rfl⟩, ?_, ?_⟩
  · cases hd : d.pids <;> simp [Device.getpid, hd]
  · intro habs
    cases hd : d.pids <;> simp [Device.getpid, hd, habs]

/-- C3 witness: the cache theorem applied to the two-target demo output,
with an old cache containing a stale entry for foo/qux; after a refreshed
call the stale entry is gone. -/
theorem claim_C3_getpid_cache_witness :
    (Device.getpid
      (Device.getpid ⟨none⟩
        "  bar.cmx[111]: fuchsia-pkg://fuchsia.com/foo#meta/bar.cmx".toList
        "foo".toList "bar".toList false).1
      [] "foo".toList "baz".toList false).2.1 = 0 ∧
    (Device.getpid ⟨some [(("foo".toList, "qux".toList), 7)]⟩
      "  bar.cmx[111]: fuchsia-pkg://fuchsia.com/foo#meta/bar.cmx".toList
      "foo".toList "qux".toList true).2.2 = -1 := by
  have h := claim_C3_getpid_cache ⟨some [(("foo".toList, "qux".toList), 7)]⟩
    "  bar.cmx[111]: fuchsia-pkg://fuchsia.com/foo#meta/bar.cmx".toList
    [] "foo".toList "bar".toList "foo".toList "qux".toList
  exact ⟨h.1.2, h.2.2 (by decide)⟩

/-- C9: whenever the external symbolizing filter exits with a nonzero
status, `Host.symbolize` returns the empty result instead of failing,
whatever the raw input and whatever output the filter produced. -/
theorem claim_C9_symbolize_empty (raw : Str) (returncode : Int) (out : Str)
    (h : returncode ≠ 0) : Host.symbolize raw returncode out = [] := by
  simp [Host.symbolize, h, klogSub, klogSubAux]

/-- C9 witness: a failing symbolizer run (exit status 1) on concrete bytes
yields the empty output. -/
theorem claim_C9_symbolize_empty_witness :
    Host.symbolize "==123== ERROR".toList 1 "garbage".toList = [] :=
  claim_C9_symbolize_empty "==123== ERROR".toList 1 "garbage".toList (by decide)

/-- C8 (code evaluated at the failing call): the keyword argument `retries`
that `Fuzzer.monitor` supplies at its background-log fetch call does not
bind to any parameter of `Device.fetch` (whose only named parameter is
`host_dst` and which has no keyword catch-all), so the call raises
`TypeError` instead of performing a retried copy. -/
theorem claim_C8_fetch_retries_bug :
    pyKeywordsBind Device.fetchKeywordParams Fuzzer.monitorFetchKwargs = false := by
  decide

/-- C2 counterexample: a fuzzer whose device holds a cached (empty) process
table while the device now reports the target running.  The refreshed
`is_running` check is true, yet `start`'s precondition gate — which calls
`require_stopped()` with its default `refresh=False` — consults the stale
cache and lets `start` proceed. -/
theorem claim_C2_counterexample :
    (Fuzzer.isRunning
      ⟨⟨some []⟩, "foo".toList, "bar".toList, none⟩
      "  bar.cmx[5]: fuchsia-pkg://fuchsia.com/foo#meta/bar.cmx".toList
      true).2.2 = true ∧
    (Fuzzer.startGate
      ⟨⟨some []⟩, "foo".toList, "bar".toList, none⟩
      "  bar.cmx[5]: fuchsia-pkg://fuchsia.com/foo#meta/bar.cmx".toList).2.2 =
      .ok () := by
  exact ⟨by decide, rfl⟩

/-- C2 (amended): `start`'s precondition check uses the default
non-refreshed `is_running` query.  Whenever that (possibly cached) check
reports the fuzzer running, `start` fails with the
"is running and must be stopped first." error, and the failing `start`
issues no remote invocation beyond the at-most-one status command of the
check itself (none at all when the PID cache was already populated). -/
theorem claim_C2_start_gate (f : Fuzzer) (out : Str)
    (h : (Fuzzer.isRunning f out false).2.2 = true) :
    (Fuzzer.startGate f out).2.2 =
      .error (Fuzzer.name f ++ " is running and must be stopped first.".toList) ∧
    (Fuzzer.startGate f out).2.1 = (Fuzzer.isRunning f out false).2.1 ∧
    (Fuzzer.isRunning f out false).2.1 ≤ 1 := by
  refine ⟨?_, ?_, ?_⟩
  · simp [Fuzzer.startGate, Fuzzer.requireStopped, h]
  · simp [Fuzzer.startGate, Fuzzer.requireStopped, h]
  · cases hd : f.device.pids with
    | none => simp [Fuzzer.isRunning, Device.getpid, hd]
    | some m => simp [Fuzzer.isRunning, Device.getpid, hd]

/-- C2 witness: a fuzzer with an unpopulated cache on a device that reports
it running; the gate queries once, fails with the formatted message, and
issues exactly that one command. -/
theorem claim_C2_start_gate_witness :
    (Fuzzer.startGate
      ⟨⟨none⟩, "foo".toList, "bar".toList, none⟩
      "  bar.cmx[5]: fuchsia-pkg://fuchsia.com/foo#meta/bar.cmx".toList).2.2 =
      .error ("foo/bar".toList ++ " is running and must be stopped first.".toList) ∧
    (Fuzzer.startGate
      ⟨⟨none⟩, "foo".toList, "bar".toList, none⟩
      "  bar.cmx[5]: fuchsia-pkg://fuchsia.com/foo#meta/bar.cmx".toList).2.1 =
      (Fuzzer.isRunning
        ⟨⟨none⟩, "foo".toList, "bar".toList, none⟩
        "  bar.cmx[5]: fuchsia-pkg://fuchsia.com/foo#meta/bar.cmx".toList
        false).2.1 := by
  have h := claim_C2_start_gate
    ⟨⟨none⟩, "foo".toList, "bar".toList, none⟩
    "  bar.cmx[5]: fuchsia-pkg://fuchsia.com/foo#meta/bar.cmx".toList
    (by decide)
  exact ⟨h.1, h.2.1⟩

/-- C7: `repro` with an empty caller-supplied input list fails with the
"No units provided." error and issues no device command at all, whatever the
fuzzer, its options, the glob environment or the transport configuration. -/
theorem claim_C7_repro_no_units (glob : Str → List Str) (sshOpts : List Str)
    (addr : Str) (f : Fuzzer) (debug : Bool) (libfuzzerOpts : Options)
    (libfuzzerInputs : List Str) (subprocessArgs : List Str)
    (h : libfuzzerInputs = []) :
    Fuzzer.repro glob sshOpts addr f debug libfuzzerOpts libfuzzerInputs
      subprocessArgs = ([], .error "No units provided.".toList) := by
  subst h
  rfl

/-- C7 witness: a concrete fuzzer invoked with zero inputs. -/
theorem claim_C7_repro_no_units_witness :
    Fuzzer.repro (fun _ => []) [] "::1".toList
      ⟨⟨none⟩, "foo".toList, "bar".toList, none⟩ false [] [] [] =
      ([], .error "No units provided.".toList) :=
  claim_C7_repro_no_units (fun _ => []) [] "::1".toList
    ⟨⟨none⟩, "foo".toList, "bar".toList, none⟩ false [] [] [] rfl

theorem optInsert_mem_of_ne (m : Options) (k v : Str) (p : Str × Str)
    (hp : p ∈ m) (hne : p.1 ≠ k) : p ∈ optInsert m k v := by
  unfold optInsert
  by_cases h : m.any (fun q => q.1 = k)
  · simp only [h, if_true]
    exact List.mem_map.mpr ⟨p, hp, by simp [hne]⟩
  · simp only [h, if_false]
    exact List.mem_append_left _ hp

theorem optUpdate_mem (m n : Options) (p : Str × Str) (hp : p ∈ m)
    (hn : p.1 ∉ n.map Prod.fst) : p ∈ optUpdate m n := by
  induction n generalizing m with
  | nil => exact hp
  | cons q n' ih =>
    have hq : p.1 ≠ q.1 := by
      intro hk
      exact hn (by simp [hk])
    exact ih (optInsert m q.1 q.2) (optInsert_mem_of_ne m q.1 q.2 p hp hq)
      (fun hmem => hn (by simp [List.mem_map] at hmem ⊢; tauto))

theorem debug_fold_mem (keys : List Str) (o : Options) (dbg : Bool)
    (p : Str × Str) (hp : p ∈ o) (hk : ∀ k ∈ keys, p.1 ≠ k) :
    p ∈ keys.foldl
      (fun o option => if dbg then optInsert o option "0".toList else o) o := by
  induction keys generalizing o with
  | nil => exact hp
  | cons k ks ih =>
    simp only [List.foldl_cons]
    cases dbg with
    | false =>
      simp only [if_false, Bool.false_eq_true]
      exact ih o hp (fun k hmem => hk k (by simp [hmem]))
    | true =>
      simp only [if_true]
      exact ih _ (optInsert_mem_of_ne o k "0".toList p hp (hk k (by simp)))
        (fun k hmem => hk k (by simp [hmem]))

theorem createOptions_mem (opts : Options) (fg dbg : Bool) (lfOpts : Options)
    (p : Str × Str) (hp : p ∈ opts)
    (hjobs : p.1 ≠ "jobs".toList)
    (hdbg : ∀ k ∈ Fuzzer.DEBUG_OPTIONS, p.1 ≠ k)
    (hlf : p.1 ∉ lfOpts.map Prod.fst) :
    p ∈ Fuzzer.createOptions opts fg dbg lfOpts := by
  unfold Fuzzer.createOptions
  refine optUpdate_mem _ _ _ ?_ hlf
  refine debug_fold_mem _ _ _ _ ?_ hdbg
  cases fg with
  | false =>
    simp only [Bool.not_false, if_true]
    exact optInsert_mem_of_ne opts _ _ p hp hjobs
  | true =>
    simpa using hp

theorem mem_sortedInsert (p q : Str × Str) (l : Options) (h : q ∈ l) :
    q ∈ sortedInsert p l := by
  induction l with
  | nil => cases h
  | cons r rs ih =>
    unfold sortedInsert
    by_cases hle : itemLe p r
    · simp [hle, h]
    · rcases List.mem_cons.mp h with h1 | h1
      · simp [hle, h1]
      · simp [hle, ih h1]

theorem mem_sortItems (p : Str × Str) (l : Options) (h : p ∈ l) :
    p ∈ sortItems l := by
  induction l with
  | nil => cases h
  | cons r rs ih =>
    unfold sortItems
    rcases List.mem_cons.mp h with h1 | h1
    · subst h1
      clear ih h
      induction sortItems rs with
      | nil => simp [sortedInsert]
      | cons s ss ihs =>
        unfold sortedInsert
        by_cases hle : itemLe p s
        · simp [hle]
        · simp [hle, ihs]
    · exact mem_sortedInsert _ _ _ (ih h1)

theorem artifact_in_createCmd (f : Fuzzer) (opts : Options) (fg dbg : Bool)
    (lfOpts : Options) (inputs subArgs : List Str)
    (hp : ("artifact_prefix".toList, "data/".toList) ∈ opts)
    (h : "artifact_prefix".toList ∉ lfOpts.map Prod.fst) :
    "-artifact_prefix=data/".toList ∈
      Fuzzer.createCmd f opts fg dbg lfOpts inputs subArgs := by
  have hopt : ("artifact_prefix".toList, "data/".toList) ∈
      Fuzzer.createOptions opts fg dbg lfOpts :=
    createOptions_mem opts fg dbg lfOpts _ hp (by decide) (by decide) h
  have hsort := mem_sortItems _ _ hopt
  unfold Fuzzer.createCmd
  refine List.mem_append_left _ (List.mem_append_left _ (List.mem_append_right _ ?_))
  exact List.mem_map.mpr ⟨_, hsort, rfl⟩

/-- C10: unless the caller's libFuzzer options override `artifact_prefix`,
every fuzz-engine argument vector the Fuzzer builds contains
`-artifact_prefix=data/`: the option map is born with that binding in
`__init__` and no lifecycle step removes the key.  The first conjunct is the
vector `start` issues; the second is the vector `repro` issues (`_create`
with foreground forced true, as used in `Fuzzer.repro`). -/
theorem claim_C10_artifact_prefix (f : Fuzzer) (fg dbg : Bool)
    (lfOpts : Options) (inputs subArgs : List Str)
    (h : "artifact_prefix".toList ∉ lfOpts.map Prod.fst) :
    "-artifact_prefix=data/".toList ∈ Fuzzer.startCmd f fg dbg lfOpts subArgs ∧
    "-artifact_prefix=data/".toList ∈
      Fuzzer.createCmd f Fuzzer.initOptions true dbg lfOpts inputs subArgs := by
  constructor
  · unfold Fuzzer.startCmd
    refine artifact_in_createCmd _ _ _ _ _ _ _ ?_ h
    exact optInsert_mem_of_ne _ _ _ _ (by simp [Fuzzer.initOptions]) (by decide)
  · exact artifact_in_createCmd _ _ _ _ _ _ _ (by simp [Fuzzer.initOptions]) h

/-- C10 witness: a background start with debug handlers enabled and caller
options that do not touch `artifact_prefix`, and the repro vector for a
concrete unit; both contain `-artifact_prefix=data/`. -/
theorem claim_C10_artifact_prefix_witness :
    "-artifact_prefix=data/".toList ∈
      Fuzzer.startCmd ⟨⟨none⟩, "foo".toList, "bar".toList, none⟩ false true
        [("runs".toList, "100".toList)] [] ∧
    "-artifact_prefix=data/".toList ∈
      Fuzzer.createCmd ⟨⟨none⟩, "foo".toList, "bar".toList, none⟩
        Fuzzer.initOptions true true [("runs".toList, "100".toList)]
        ["data/crash-deadbeef".toList] [] :=
  claim_C10_artifact_prefix ⟨⟨none⟩, "foo".toList, "bar".toList, none⟩ false true
    [("runs".toList, "100".toList)] ["data/crash-deadbeef".toList] []
    (by decide)

theorem symStep_not_mut (env : SymEnv) (st : SymState) (line : Str)
    (h : mutMarker line = false) :
    (symStep env st line).fetches = st.fetches ∧
    (symStep env st line).sym = st.sym := by
  cases hp : pidMarker line <;> cases ha : artMarker line <;>
    simp [symStep, h, hp, ha]

theorem symStep_mut_fresh (env : SymEnv) (st : SymState) (line : Str)
    (hm : mutMarker line = true) (hs : symFalsy st.sym = true) :
    (symStep env st line).fetches = st.fetches + 1 ∧
    (symStep env st line).sym = some (env.symAt st.fetches) := by
  cases hp : pidMarker line <;> cases ha : artMarker line <;>
    simp [symStep, hm, hp, ha] <;> split <;> simp [hs]

theorem symStep_mut_done (env : SymEnv) (st : SymState) (line : Str)
    (hm : mutMarker line = true) (hs : symFalsy st.sym = false) :
    (symStep env st line).fetches = st.fetches ∧
    (symStep env st line).sym = st.sym := by
  cases hp : pidMarker line <;> cases ha : artMarker line <;>
    simp [symStep, hm, hp, ha] <;> split <;> simp [hs]

/-- Invariant of the symbolization loop when the first symbolization result
is nonempty: either no fetch has happened and `sym` is still `None`, or
exactly one fetch has happened and `sym` holds its (nonempty) result. -/
def symInv (env : SymEnv) (st : SymState) : Prop :=
  (st.fetches = 0 ∧ st.sym = none) ∨
  (st.fetches = 1 ∧ st.sym = some (env.symAt 0))

theorem symFold_count (env : SymEnv) (h : env.symAt 0 ≠ []) (lines : List Str)
    (st : SymState) (hst : symInv env st) :
    symInv env (lines.foldl (symStep env) st) ∧
    (lines.foldl (symStep env) st).fetches =
      (if lines.any mutMarker then 1 else st.fetches) := by
  induction lines generalizing st with
  | nil =>
    exact ⟨by simpa using hst, by simp⟩
  | cons line rest ih =>
    by_cases hm : mutMarker line = true
    · rcases hst with ⟨hf, hsym⟩ | ⟨hf, hsym⟩
      · have hstep := symStep_mut_fresh env st line hm (by simp [symFalsy, hsym])
        have hinv : symInv env (symStep env st line) :=
          Or.inr ⟨by rw [hstep.1, hf], by rw [hstep.2, hf]⟩
        have hrec := ih (symStep env st line) hinv
        refine ⟨hrec.1, ?_⟩
        simp only [List.foldl_cons, List.any_cons, hm, Bool.true_or, if_true]
        rw [hrec.2, hstep.1, hf]
        split <;> rfl
      · have hfls : symFalsy st.sym = false := by
          simp [symFalsy, hsym, h]
        have hstep := symStep_mut_done env st line hm hfls
        have hinv : symInv env (symStep env st line) :=
          Or.inr ⟨by rw [hstep.1, hf], by rw [hstep.2, hsym]⟩
        have hrec := ih (symStep env st line) hinv
        refine ⟨hrec.1, ?_⟩
        simp only [List.foldl_cons, List.any_cons, hm, Bool.true_or, if_true]
        rw [hrec.2, hstep.1, hf]
        split <;> rfl
    · have hm' : mutMarker line = false := by
        cases hx : mutMarker line with
        | false => rfl
        | true => exact absurd hx hm
      have hstep := symStep_not_mut env st line hm'
      have hinv : symInv env (symStep env st line) := by
        rcases hst with ⟨hf, hsym⟩ | ⟨hf, hsym⟩
        · exact Or.inl ⟨by rw [hstep.1, hf], by rw [hstep.2, hsym]⟩
        · exact Or.inr ⟨by rw [hstep.1, hf], by rw [hstep.2, hsym]⟩
      have hrec := ih (symStep env st line) hinv
      refine ⟨hrec.1, ?_⟩
      simp only [List.foldl_cons, List.any_cons, hm', Bool.false_or]
      rw [hrec.2, hstep.1]

/-- C1 counterexample: the guard on the symbolization block is
`if not sym:`, and the empty string is falsy in Python, so when the
symbolizer yields an empty result the pipeline fetches and symbolizes the
device syslog again at the next mutation-marker line — here a stream with
two `MS:` lines causes two fetch/symbolize/write events, not at most one. -/
theorem claim_C1_counterexample :
    ¬ (∀ (env : SymEnv) (lines : List Str),
        (symbolizeLogImpl env lines).fetches ≤ 1) := by
  intro h
  have h2 := h ⟨7, fun _ => []⟩
    ["MS: 1 ChangeByte-".toList, "MS: 2 EraseBytes-".toList]
  exact absurd h2 (by decide)

/-- C1 (amended): provided the first symbolization produces a nonempty
result, the pipeline performs the syslog fetch/symbolize/write block exactly
once per stream containing a mutation marker (and never otherwise), no
matter how many further mutation markers appear.  (If the symbolized result
is empty — Python-falsy — a later marker retries the block, see the
counterexample.) -/
theorem claim_C1_symbolize_once (env : SymEnv) (lines : List Str)
    (h : env.symAt 0 ≠ []) :
    (symbolizeLogImpl env lines).fetches =
      (if lines.any mutMarker then 1 else 0) := by
  have hfold := symFold_count env h lines initSymState (Or.inl ⟨rfl, rfl⟩)
  simpa [symbolizeLogImpl, initSymState] using hfold.2

/-- C1 witness: a stream announcing a PID, mutating twice and writing an
artifact, with a symbolizer that produces nonempty output: exactly one
fetch/symbolize/write block runs. -/
theorem claim_C1_symbolize_once_witness :
    (symbolizeLogImpl ⟨7, fun _ => "symbolized stack".toList⟩
      ["==123== ERROR: libFuzzer: deadly signal".toList,
       "MS: 1 ChangeByte-".toList,
       "MS: 2 EraseBytes-".toList,
       "Test unit written to data/crash-ab12".toList]).fetches =
      (if ["==123== ERROR: libFuzzer: deadly signal".toList,
           "MS: 1 ChangeByte-".toList,
           "MS: 2 EraseBytes-".toList,
           "Test unit written to data/crash-ab12".toList].any mutMarker
       then 1 else 0) :=
  claim_C1_symbolize_once ⟨7, fun _ => "symbolized stack".toList⟩
    ["==123== ERROR: libFuzzer: deadly signal".toList,
     "MS: 1 ChangeByte-".toList,
     "MS: 2 EraseBytes-".toList,
     "Test unit written to data/crash-ab12".toList]
    (by decide)

/-- C4 (code evaluated at the failing input): the artifact names announced
on the stream are recorded exactly (first conjunct), but the post-loop fetch
call passes `data_path(artifact)` in `Device.fetch`'s `host_dst` (first,
host-destination) position and the output directory in the device-sources
position (second conjunct); executing that call on a host where only the
output directory `/out` exists raises
`ValueError: ... is not a directory` instead of copying the artifact from
the device data namespace into the output directory (third conjunct). -/
theorem claim_C4_artifact_fetch_bug :
    (symbolizeLogImpl ⟨7, fun _ => []⟩
      ["Test unit written to data/crash-ab12".toList]).artifacts =
      ["crash-ab12".toList] ∧
    symbolizeLogFetchCalls ⟨⟨none⟩, "foo".toList, "bar".toList, none⟩
      "/out".toList ⟨7, fun _ => []⟩
      ["Test unit written to data/crash-ab12".toList] =
      [("/data/r/sys/fuchsia.com:foo:0#meta:bar.cmx/crash-ab12".toList,
        ["/out".toList])] ∧
    Device.fetch (fun p => p == "/out".toList) [] "::1".toList
      "/data/r/sys/fuchsia.com:foo:0#meta:bar.cmx/crash-ab12".toList
      ["/out".toList] =
      .error ("/data/r/sys/fuchsia.com:foo:0#meta:bar.cmx/crash-ab12".toList ++
        " is not a directory".toList) := by
  exact ⟨by decide, by decide, rfl⟩
